import Mathlib

/-!
Shallow embedding of the image-processing core of `src/content.js`
(ocr_extension content script): the processing pipeline `processImage`,
the registry (the `processedImages` / `processingImages` sets and the
`images` entry list), the mutation-watcher attribute branch, the reload
handler, the periodic sweep, session disable, and the text-toggle /
translate-selection message handlers.

Modelling conventions:
* DOM elements are identified by `Nat` (identity is the element reference
  itself in the source; no separate id is minted there, so a pure identity
  suffices here).
* The `WeakSet`s become duplicate-free `List Nat` with set-style `add`
  (no-op when present) and `delete` (filter).
* Overlay box nodes (`drawBox` results) become `Box` records carrying the
  JS expando fields `originalText` / `translatedText` as `Option String`
  (`none` models the JS `undefined` left by `applyError`, which sets
  neither field) and the displayed text `innerText : String`; assigning a
  JS `undefined` to `innerText` stringifies it, modelled by `jsStr`.
* Attachment of a box node to the document (`wrapper.appendChild` /
  `box.remove()`) is tracked by the `doc` list of attached box ids.
* The asynchronous environment of one pipeline run (displayed size after
  the load wait, whether `base64FromAny` succeeds, the `getOcr` outcome,
  whether `wrapImage` succeeds and what it returns, whether rendering
  throws) is an explicit `Env` record; `processImage` is split into its
  synchronous prefix `processImageStart` (source lines 207-219, before the
  first `await`) and the suspended remainder `processImageFinish`
  (lines 221-302, whose `try`/`finally` always clears the processing flag).
* Collaborators outside `src/` (md5, drawBox geometry, CSS classes,
  clipboard, context menu) are out of the registry logic and only their
  state-relevant effects are kept, per the spec's interface section.
-/

/-- Set-style insert for the `WeakSet.add` of the source: no duplicate is
ever created. -/
def addSet (x : Nat) (l : List Nat) : List Nat :=
  if x ∈ l then l else x :: l

/-- Set-style removal for the `WeakSet.delete` of the source. -/
def delSet (x : Nat) (l : List Nat) : List Nat :=
  l.filter (fun y => y ≠ x)

/-- JS stringification of a possibly-`undefined` value, as happens when the
source assigns `box.originalText` / `box.translatedText` (which may be
`undefined`) to `innerText`. -/
def jsStr : Option String → String
  | some s => s
  | none => "undefined"

/-- One recognized region of a `getOcr` result: `ocr.result` elements are
destructured in `applyOcr` as `\x7bocr, tsl, box\x7d`.  The quadrilateral is kept
as raw data; its rescaling happens in the `drawBox` collaborator. -/
structure Region where
  ocr : String
  tsl : String
  box : List Nat
deriving Repr, DecidableEq

/-- Outcome of the awaited `getOcr` call (content.js lines 262-274): either
a result, or one of the three caught error shapes. -/
inductive OcrOutcome where
  | ok (result : List Region)
  | errNetwork
  | errBadResponse (status : Nat) (msg : String)
  | errUnknown
deriving Repr, DecidableEq

/-- The user-visible error string computed in the catch block of
content.js lines 264-274. -/
def errorText : OcrOutcome → String
  | OcrOutcome.ok _ => ""
  | OcrOutcome.errNetwork => "Network error"
  | OcrOutcome.errBadResponse code msg => "Error [" ++ Nat.repr code ++ "]: " ++ msg
  | OcrOutcome.errUnknown => "Unknown error"

/-- An overlay box node as produced by `drawBox` and decorated by
`applyOcr` / `applyError`. -/
structure Box where
  id : Nat
  originalText : Option String
  translatedText : Option String
  innerText : String
deriving Repr, DecidableEq

/-- A registry entry (`ptr` object pushed onto the global `images` array in
`applyOcr` / `applyError`). -/
structure Ptr where
  img : Nat
  wrapper : Nat
  boxes : List Box
deriving Repr, DecidableEq

/-- The mutable script state: the two weak sets, the `images` entry list,
the set of box ids attached to the document, the elements carrying the
`onImageReload` load listener, the wrapped elements, the `OCR` session
flag, the `showTranslated` flag, the text orientation, the open-UI flags
of the context-menu collaborator, and a fresh-id counter for box nodes. -/
structure St where
  processed : List Nat
  processing : List Nat
  images : List Ptr
  doc : List Nat
  reloadListeners : List Nat
  wrapped : List Nat
  ocrEnabled : Bool
  showTranslated : Bool
  orientation : String
  dialogOpen : Bool
  contextMenuOpen : Bool
  nextBoxId : Nat
deriving Repr, DecidableEq

/-- The environment of one asynchronous pipeline run: everything the
awaited collaborators decide.  `width`/`height` are the displayed size
read after the load wait; `encodeOk` is `some base64data` when
`base64FromAny` resolves and `none` when it throws; `ocrResult` is the
`getOcr` outcome; `wrapOk`, `newImg`, `wrapperId` describe what
`wrapImage` returns (it throws when `wrapOk = false`); `renderThrows`
models an exception thrown by the rendering step after a successful wrap,
exercising the bare `finally` path. -/
structure Env where
  width : Nat
  height : Nat
  encodeOk : Option String
  ocrResult : OcrOutcome
  wrapOk : Bool
  newImg : Nat
  wrapperId : Nat
  renderThrows : Bool
deriving Repr, DecidableEq

/-- Which steps of a pipeline run actually executed, recorded so claims
about "no encoding work" or "submitted for encoding" are observable.
`started` means the guards were passed and the body entered; `encoded`
means `base64FromAny` was invoked; `recognized` means `getOcr` was
awaited. -/
structure Trace where
  started : Bool := false
  encoded : Bool := false
  recognized : Bool := false
  sizeGated : Bool := false
  encodeFailed : Bool := false
  wrapFailed : Bool := false
  threw : Bool := false
  rendered : Bool := false
deriving Repr, DecidableEq

/-- `applyOcr` (content.js lines 137-165): push a fresh entry onto
`images`, then for each region draw a box showing the translated or the
original text according to the global `showTranslated`, record both texts
on the node, append it to the wrapper (attaching it to the document) and
to the entry's box list.  Event-handler wiring (clipboard, context menu)
has no registry effect. -/
def applyOcr (img wrapper : Nat) (ocr : List Region) (s : St) : St :=
  let step := fun (acc : List Box × Nat) (r : Region) =>
    (acc.1 ++ [{ id := acc.2
                 originalText := some r.ocr
                 translatedText := some r.tsl
                 innerText := if s.showTranslated then r.tsl else r.ocr }],
     acc.2 + 1)
  let built := ocr.foldl step ([], s.nextBoxId)
  { s with
    images := s.images ++ [{ img := img, wrapper := wrapper, boxes := built.1 }]
    doc := s.doc ++ built.1.map Box.id
    nextBoxId := built.2 }

/-- `applyError` (content.js lines 172-191): push a fresh entry onto
`images` and draw a single centered box showing the error string.  The
source never sets `originalText` / `translatedText` on this node, so both
stay `undefined` (`none` here). -/
def applyError (img wrapper : Nat) (error : String) (s : St) : St :=
  { s with
    images := s.images ++ [{ img := img, wrapper := wrapper
                             boxes := [{ id := s.nextBoxId
                                         originalText := none
                                         translatedText := none
                                         innerText := error }] }]
    doc := s.doc ++ [s.nextBoxId]
    nextBoxId := s.nextBoxId + 1 }

/-- The synchronous prefix of `processImage` (content.js lines 207-219):
the `processedImages` guard, the `processingImages` guard, and the
`processingImages.add`.  All three run before the first `await`, inside a
single event-loop turn; the returned `Bool` says whether the body is
entered. -/
def processImageStart (img : Nat) (s : St) : Bool × St :=
  if img ∈ s.processed then (false, s)
  else if img ∈ s.processing then (false, s)
  else (true, { s with processing := addSet img s.processing })

/-- The suspended remainder of `processImage` (content.js lines 221-302),
already inside the `try`.  Every exit path runs the `finally` clause,
which deletes the element from `processingImages`:

* the load wait (lines 223-236) has no registry effect;
* size gate (lines 239-243): area below 100*100 returns early, nothing
  marked;
* encode (lines 246-253): `base64FromAny` throwing returns early;
* the md5 fingerprint of the base64 data is computed for `getOcr`
  (collaborator; no registry effect);
* `getOcr` (lines 262-277) sets `error` from the catch block on failure;
  the `ocr-loading` CSS class is style-only;
* `wrapImage` (lines 280-286) throwing returns early; on success the
  element is wrapped;
* an exception thrown while rendering (modelled by `renderThrows`)
  propagates but still runs the `finally`;
* error outcome: `applyError` with the computed message, element not
  marked processed (lines 288-291);
* success: `applyOcr`, then `processedImages.add` (lines 292-296);
* both rendered paths attach the `onImageReload` load listener to the
  wrapped element (line 297). -/
def processImageFinish (img : Nat) (env : Env) (s : St) : St × Trace :=
  let fin := fun (st : St) => { st with processing := delSet img st.processing }
  if env.width * env.height < 100 * 100 then
    (fin s, { started := true, sizeGated := true })
  else
    match env.encodeOk with
    | none => (fin s, { started := true, encoded := true, encodeFailed := true })
    | some _base64data =>
      if env.wrapOk = false then
        (fin s, { started := true, encoded := true, recognized := true, wrapFailed := true })
      else
        let s1 := { s with wrapped := addSet img s.wrapped }
        if env.renderThrows then
          (fin s1, { started := true, encoded := true, recognized := true, threw := true })
        else
          match env.ocrResult with
          | OcrOutcome.ok result =>
            let s2 := applyOcr env.newImg env.wrapperId result s1
            let s3 := { s2 with
                        processed := addSet img s2.processed
                        reloadListeners := addSet env.newImg s2.reloadListeners }
            (fin s3, { started := true, encoded := true, recognized := true, rendered := true })
          | e =>
            let s2 := applyError env.newImg env.wrapperId (errorText e) s1
            let s3 := { s2 with reloadListeners := addSet env.newImg s2.reloadListeners }
            (fin s3, { started := true, encoded := true, recognized := true, rendered := true })

/-- `processImage` (content.js lines 203-303): the synchronous guard
prefix, then — only when it admits the run — the asynchronous remainder. -/
def processImage (img : Nat) (env : Env) (s : St) : St × Trace :=
  let r := processImageStart img s
  if r.1 then processImageFinish img env r.2 else (r.2, {})

/-- `destroyTextboxes` (content.js lines 322-345) for a trackable element:
delete it from both weak sets, remove every box of every entry owning it
from the document, and splice those entries out of `images` (the source
collects indices and splices in descending order; the net effect on the
array is this filter). -/
def destroyTextboxes (node : Nat) (s : St) : St :=
  let owned := s.images.filter (fun p => p.img == node)
  { s with
    processed := delSet node s.processed
    processing := delSet node s.processing
    doc := owned.foldl (fun d p => p.boxes.foldl (fun d b => delSet b.id d) d) s.doc
    images := s.images.filter (fun p => p.img != node) }

/-- The `attributes` branch of the mutation observer (content.js
lines 112-119): on a `src`/`data-src` change of a trackable element,
delete it from `processedImages` and resubmit it to `processImage`.
Nothing else is touched — in particular `processingImages` is not. -/
def onSrcAttrChange (img : Nat) (env : Env) (s : St) : St × Trace :=
  processImage img env { s with processed := delSet img s.processed }

/-- `onImageReload` (content.js lines 309-316): delete the element from
both weak sets, destroy its textboxes, and reprocess it. -/
def onImageReload (img : Nat) (env : Env) (s : St) : St × Trace :=
  let s1 := { s with processed := delSet img s.processed
                     processing := delSet img s.processing }
  processImage img env (destroyTextboxes img s1)

/-- The body of the periodic interval started by `enableOCR` (content.js
lines 377-389): when the session is off the interval clears itself and
does nothing; otherwise every trackable element of the document not in
`processedImages` is resubmitted to `processImage`.  The list of
`(element, trace)` pairs records which submissions ran and what they did;
`envOf` supplies each run's asynchronous environment. -/
def periodicCheck (docImgs : List Nat) (envOf : Nat → Env) (s : St) :
    St × List (Nat × Trace) :=
  if s.ocrEnabled = false then (s, [])
  else
    docImgs.foldl
      (fun acc img =>
        if img ∈ acc.1.processed then acc
        else
          let r := processImage img (envOf img) acc.1
          (r.1, acc.2 ++ [(img, r.2)]))
      (s, [])

/-- Teardown of one registry entry inside the `disableOCR` loop (content.js
lines 408-419): remove every box node from the document, detach the
reload listener, delete the element from both weak sets, and unwrap it. -/
def teardownEntry (s : St) (p : Ptr) : St :=
  { s with
    doc := p.boxes.foldl (fun d b => delSet b.id d) s.doc
    reloadListeners := delSet p.img s.reloadListeners
    processed := delSet p.img s.processed
    processing := delSet p.img s.processing
    wrapped := delSet p.img s.wrapped }

/-- `disableOCR` (content.js lines 398-423): a no-op when already
disabled; otherwise clear the `OCR` flag, disconnect the observer, tear
down every entry walking the array from its end (`while (i--)`, splicing
each index, so `images` ends empty), and close the dialog and context
menu. -/
def disableOCR (s : St) : St :=
  if s.ocrEnabled = false then s
  else
    let s1 := s.images.reverse.foldl teardownEntry { s with ocrEnabled := false }
    { s1 with images := [], dialogOpen := false, contextMenuOpen := false }

/-- The `show-original-text` message handler (content.js lines 456-465):
set `showTranslated := false`, adopt the message's orientation, and write
`box.originalText` into every registry box's `innerText` (a JS
`undefined` stringifies). -/
def showOriginalText (orient : String) (s : St) : St :=
  { s with
    showTranslated := false
    orientation := orient
    images := s.images.map (fun p =>
      { p with boxes := p.boxes.map (fun b =>
          { b with innerText := jsStr b.originalText }) }) }

/-- The `show-translated-text` message handler (content.js lines 466-475):
set `showTranslated := true`, adopt the message's orientation, and write
`box.translatedText` into every registry box's `innerText`. -/
def showTranslatedText (orient : String) (s : St) : St :=
  { s with
    showTranslated := true
    orientation := orient
    images := s.images.map (fun p =>
      { p with boxes := p.boxes.map (fun b =>
          { b with innerText := jsStr b.translatedText }) }) }

/-- JS `String.prototype.replace` with a string pattern, over character
lists: replace the leftmost occurrence of `pat` (insert at the front for
the empty pattern, return the input unchanged when `pat` does not occur).
Replacement-string `$`-expansion is not exercised by the handler's data
and is not modelled. -/
def replaceFirstList (pat rep : List Char) : List Char → List Char
  | [] => if pat.isPrefixOf ([] : List Char) then rep else []
  | c :: cs =>
    if pat.isPrefixOf (c :: cs) then rep ++ (c :: cs).drop pat.length
    else c :: replaceFirstList pat rep cs

/-- String-level wrapper of `replaceFirstList`. -/
def jsReplace (s pat rep : String) : String :=
  String.mk (replaceFirstList pat.data rep.data s.data)

/-- The `translate-selection` message handler's text mutation (content.js
line 454): `element.innerText = element.innerText.replace(msg.text,
res.text)`, returning the element's new text. -/
def translateSelection (elemText selText resText : String) : String :=
  jsReplace elemText selText resText

/-- The registry entries owned by one element. -/
def entriesFor (img : Nat) (s : St) : List Ptr :=
  s.images.filter (fun p => p.img == img)

/-- The displayed text of every registry box, in registry order. -/
def boxTexts (s : St) : List String :=
  (s.images.map (fun p => p.boxes.map Box.innerText)).flatten

/-- The enabled session right after `enableOCR` on an empty page: both weak
sets empty, no entries, default options. -/
def st0 : St :=
  { processed := [], processing := [], images := [], doc := []
    reloadListeners := [], wrapped := [], ocrEnabled := true
    showTranslated := true, orientation := "horizontal-tb"
    dialogOpen := false, contextMenuOpen := false, nextBoxId := 0 }

/-- A run environment for element 5 in which every collaborator succeeds
and recognition returns one region. -/
def envOk : Env :=
  { width := 200, height := 200, encodeOk := some "payload"
    ocrResult := OcrOutcome.ok [{ ocr := "A", tsl := "B", box := [0, 0, 100, 100] }]
    wrapOk := true, newImg := 5, wrapperId := 7, renderThrows := false }

/-- As `envOk` but recognition fails with a bad response, status 500,
message "quota exceeded". -/
def env500 : Env :=
  { envOk with ocrResult := OcrOutcome.errBadResponse 500 "quota exceeded" }

/-- As `envOk` but the element displays at 99 by 99 pixels. -/
def env99 : Env :=
  { envOk with width := 99, height := 99 }

/-- As `envOk` but the element displays at 100 by 100 pixels. -/
def env100 : Env :=
  { envOk with width := 100, height := 100 }

/-! ### Helper lemmas about the set operations and the pipeline remainder -/

theorem not_mem_delSet (x : Nat) (l : List Nat) : x ∉ delSet x l := by
  simp [delSet]

theorem mem_of_mem_delSet {y x : Nat} {l : List Nat} (h : y ∈ delSet x l) : y ∈ l := by
  simp only [delSet, List.mem_filter] at h
  exact h.1

theorem mem_addSet_self (x : Nat) (l : List Nat) : x ∈ addSet x l := by
  unfold addSet
  split
  · assumption
  · exact List.mem_cons_self x l

/-- Every branch of the pipeline remainder ends in the `finally` clause:
the returned processing set is exactly the input one with the element
deleted (no branch touches `processingImages` otherwise). -/
theorem processImageFinish_processing (img : Nat) (env : Env) (s : St) :
    (processImageFinish img env s).1.processing = delSet img s.processing := by
  unfold processImageFinish
  dsimp only
  split
  · rfl
  · split
    · rfl
    · split
      · rfl
      · split
        · rfl
        · split <;> rfl

/-- The pipeline remainder is only reached when the guards admitted the
run, and it always records that the body started. -/
theorem processImageFinish_started (img : Nat) (env : Env) (s : St) :
    (processImageFinish img env s).2.started = true := by
  unfold processImageFinish
  dsimp only
  split
  · rfl
  · split
    · rfl
    · split
      · rfl
      · split
        · rfl
        · split <;> rfl

/-- No branch of the pipeline remainder removes an element from
`processedImages`; only the success branch adds one. -/
theorem processImageFinish_processed (img : Nat) (env : Env) (s : St) :
    (processImageFinish img env s).1.processed = s.processed ∨
    (processImageFinish img env s).1.processed = addSet img s.processed := by
  unfold processImageFinish
  dsimp only
  split
  · exact Or.inl rfl
  · split
    · exact Or.inl rfl
    · split
      · exact Or.inl rfl
      · split
        · exact Or.inl rfl
        · split
          · exact Or.inr rfl
          · exact Or.inl rfl

/-! ### Claim theorems -/

/-- C1: single-flight guarantee.  A call to `processImage` on an element
already in the processed or the processing set returns at once with the
state unchanged and an all-false trace (no encoding, no recognition); and
for an untracked element the synchronous prefix is a check-and-set: it
admits the run and marks the element processing in one step, so a second
submission of the same element in the same turn — before the first run's
remainder resumes — is refused, whatever its environment. -/
theorem processImage_single_flight :
    (∀ (img : Nat) (env : Env) (s : St),
        img ∈ s.processed ∨ img ∈ s.processing →
        processImage img env s = (s, {})) ∧
    (∀ (img : Nat) (s : St),
        img ∉ s.processed → img ∉ s.processing →
        (processImageStart img s).1 = true ∧
        img ∈ (processImageStart img s).2.processing ∧
        (processImageStart img (processImageStart img s).2).1 = false ∧
        ∀ env2 : Env,
          processImage img env2 (processImageStart img s).2
            = ((processImageStart img s).2, {})) := by
  constructor
  · intro img env s h
    by_cases hp : img ∈ s.processed
    · simp [processImage, processImageStart, hp]
    · have hq : img ∈ s.processing := h.resolve_left hp
      simp [processImage, processImageStart, hp, hq]
  · intro img s h1 h2
    have hstart :
        processImageStart img s
          = (true, { s with processing := addSet img s.processing }) := by
      simp [processImageStart, h1, h2]
    refine ⟨by rw [hstart], ?_, ?_, ?_⟩
    · rw [hstart]
      exact mem_addSet_self img s.processing
    · rw [hstart]
      simp [processImageStart, h1, mem_addSet_self]
    · intro env2
      rw [hstart]
      simp [processImage, processImageStart, h1, mem_addSet_self]

theorem processImage_single_flight_witness :
    processImage 5 envOk { st0 with processed := [5] }
        = ({ st0 with processed := [5] }, {}) ∧
    (processImageStart 5 st0).1 = true ∧
    (processImageStart 5 (processImageStart 5 st0).2).1 = false :=
  ⟨processImage_single_flight.1 5 envOk { st0 with processed := [5] }
      (Or.inl (by decide)),
   (processImage_single_flight.2 5 st0 (by decide) (by decide)).1,
   (processImage_single_flight.2 5 st0 (by decide) (by decide)).2.2.1⟩

/-- C2: on every exit path of the pipeline remainder — success, size-gate
early return, encode failure, wrap failure, recognition error, or a
rendering exception — the `finally` clause deletes the element from the
processing set, so a run never leaves its element stuck in "processing";
consequently a `processImage` call on an element not currently marked
processing returns with it not marked processing either. -/
theorem processImage_always_clears_processing :
    (∀ (img : Nat) (env : Env) (s : St),
        img ∉ (processImageFinish img env s).1.processing) ∧
    (∀ (img : Nat) (env : Env) (s : St),
        img ∉ s.processing →
        img ∉ (processImage img env s).1.processing) := by
  have hfin : ∀ (img : Nat) (env : Env) (s : St),
      img ∉ (processImageFinish img env s).1.processing := by
    intro img env s
    rw [processImageFinish_processing]
    exact not_mem_delSet img s.processing
  refine ⟨hfin, ?_⟩
  intro img env s h
  by_cases hp : img ∈ s.processed
  · simpa [processImage, processImageStart, hp] using h
  · have hstart :
        processImageStart img s
          = (true, { s with processing := addSet img s.processing }) := by
      simp [processImageStart, hp, h]
    unfold processImage
    rw [hstart]
    exact hfin img env _

theorem processImage_always_clears_processing_witness :
    5 ∉ (processImageFinish 5 envOk st0).1.processing ∧
    5 ∉ (processImage 5 env500 st0).1.processing :=
  ⟨processImage_always_clears_processing.1 5 envOk st0,
   processImage_always_clears_processing.2 5 env500 st0 (by decide)⟩

/-- C3: the at-most-one-entry-per-element invariant does not hold in the
code.  An element whose first run ends in a recognition error owns one
entry (from `applyError`) and is not marked processed, so the next
periodic sweep resubmits it; the second run's `applyError` appends a
second entry owned by the same element — neither the sweep nor the error
path destroys the prior entry — and both error boxes stay attached to the
document. -/
theorem error_retry_duplicates_registry_entries :
    (entriesFor 5 (periodicCheck [5] (fun _ => env500)
        (processImage 5 env500 st0).1).1).length = 2 ∧
    boxTexts (periodicCheck [5] (fun _ => env500)
        (processImage 5 env500 st0).1).1
      = ["Error [500]: quota exceeded", "Error [500]: quota exceeded"] := by
  decide

/-- C4, counterexample: the watcher's source-attribute branch does not
clear the processing flag.  Element 5 is mid-flight (its synchronous
prefix ran, so it is in the processing set); a `src` change then runs the
branch, after which the element is still marked processing and the
resubmission did no work at all (all-false trace) — contradicting the
claim that both flags are cleared and the element becomes eligible for
fresh reprocessing. -/
theorem srcChange_leaves_processing_flag :
    5 ∈ (onSrcAttrChange 5 envOk (processImageStart 5 st0).2).1.processing ∧
    (onSrcAttrChange 5 envOk (processImageStart 5 st0).2).2 = ({} : Trace) := by
  decide

/-- C4, amended: on a source-attribute change the watcher deletes the
element from the processed set only, then resubmits it: when no run is in
flight the pipeline body starts afresh, but an element currently marked
processing keeps its processing flag and the resubmission is a complete
no-op beyond the processed-set deletion. -/
theorem srcChange_clears_only_processed :
    ∀ (img : Nat) (env : Env) (s : St),
      (img ∉ s.processing → (onSrcAttrChange img env s).2.started = true) ∧
      (img ∈ s.processing →
        onSrcAttrChange img env s
          = ({ s with processed := delSet img s.processed }, {})) := by
  intro img env s
  constructor
  · intro h
    unfold onSrcAttrChange
    have hstart :
        processImageStart img { s with processed := delSet img s.processed }
          = (true, { s with processed := delSet img s.processed
                            processing := addSet img s.processing }) := by
      simp [processImageStart, not_mem_delSet, h]
    unfold processImage
    rw [hstart]
    exact processImageFinish_started img env _
  · intro h
    unfold onSrcAttrChange processImage
    have hstart :
        processImageStart img { s with processed := delSet img s.processed }
          = (false, { s with processed := delSet img s.processed }) := by
      simp [processImageStart, not_mem_delSet, h]
    rw [hstart]
    rfl

theorem srcChange_clears_only_processed_witness :
    (onSrcAttrChange 5 envOk st0).2.started = true ∧
    onSrcAttrChange 5 envOk (processImageStart 5 st0).2
      = ({ (processImageStart 5 st0).2 with
            processed := delSet 5 (processImageStart 5 st0).2.processed }, {}) :=
  ⟨(srcChange_clears_only_processed 5 envOk st0).1 (by decide),
   (srcChange_clears_only_processed 5 envOk (processImageStart 5 st0).2).2 (by decide)⟩

/-- C6: the size gate.  Whenever the displayed area is below 10,000
square pixels the pipeline returns before the encode step is ever reached
(`encoded = false` also covers the guard-refused paths), the element is
not added to the processed set, and its processing flag is not left set,
so it stays eligible for a retry; concretely a 99 by 99 element is never
submitted for encoding while a 100 by 100 element reaches the encode
step. -/
theorem processImage_size_gate :
    (∀ (img : Nat) (env : Env) (s : St),
        env.width * env.height < 10000 →
        (processImage img env s).2.encoded = false ∧
        (img ∉ s.processed → img ∉ (processImage img env s).1.processed) ∧
        (img ∉ s.processing → img ∉ (processImage img env s).1.processing)) ∧
    (processImage 5 env99 st0).2.encoded = false ∧
    (processImage 5 env100 st0).2.encoded = true := by
  refine ⟨?_, by decide, by decide⟩
  intro img env s h
  have h100 : env.width * env.height < 100 * 100 := by simpa using h
  by_cases hp : img ∈ s.processed
  · have hrun : processImage img env s = (s, {}) := by
      simp [processImage, processImageStart, hp]
    rw [hrun]
    exact ⟨rfl, fun hnp => hnp, fun hq => hq⟩
  · by_cases hq : img ∈ s.processing
    · have hrun : processImage img env s = (s, {}) := by
        simp [processImage, processImageStart, hp, hq]
      rw [hrun]
      exact ⟨rfl, fun hnp => hnp, fun hq' => absurd hq hq'⟩
    · have hstart :
          processImageStart img s
            = (true, { s with processing := addSet img s.processing }) := by
        simp [processImageStart, hp, hq]
      have hrun :
          processImage img env s
            = ({ s with processing := delSet img (addSet img s.processing) },
               { started := true, sizeGated := true }) := by
        unfold processImage
        rw [hstart]
        simp [processImageFinish, h100]
      rw [hrun]
      exact ⟨rfl, fun hnp => hnp, fun _ => not_mem_delSet img (addSet img s.processing)⟩

theorem processImage_size_gate_witness :
    (processImage 7 env99 st0).2.encoded = false ∧
    7 ∉ (processImage 7 env99 st0).1.processed :=
  ⟨(processImage_size_gate.1 7 env99 st0 (by decide)).1,
   (processImage_size_gate.1 7 env99 st0 (by decide)).2.1 (by decide)⟩

/-- Removing a list of boxes from the document only ever removes ids. -/
theorem mem_of_mem_boxfold {bs : List Box} :
    ∀ {d : List Nat} {y : Nat},
      y ∈ bs.foldl (fun d b => delSet b.id d) d → y ∈ d := by
  induction bs with
  | nil =>
    intro d y h
    exact h
  | cons b bs ih =>
    intro d y h
    rw [List.foldl_cons] at h
    exact mem_of_mem_delSet (ih h)

/-- Removing a list of boxes from the document removes each of them. -/
theorem not_mem_boxfold {b : Box} :
    ∀ {bs : List Box}, b ∈ bs → ∀ (d : List Nat),
      b.id ∉ bs.foldl (fun d bx => delSet bx.id d) d := by
  intro bs
  induction bs with
  | nil =>
    intro hb
    cases hb
  | cons c cs ih =>
    intro hb d
    rw [List.foldl_cons]
    rcases List.mem_cons.mp hb with hbc | h
    · subst hbc
      intro hmem
      exact not_mem_delSet b.id d (mem_of_mem_boxfold hmem)
    · exact ih h (delSet c.id d)

/-- The `disableOCR` teardown loop only ever removes elements from the
registry's sets and from the document. -/
theorem teardown_foldl_shrink :
    ∀ (l : List Ptr) (s : St) (y : Nat),
      (y ∈ (l.foldl teardownEntry s).processed → y ∈ s.processed) ∧
      (y ∈ (l.foldl teardownEntry s).processing → y ∈ s.processing) ∧
      (y ∈ (l.foldl teardownEntry s).reloadListeners → y ∈ s.reloadListeners) ∧
      (y ∈ (l.foldl teardownEntry s).wrapped → y ∈ s.wrapped) ∧
      (y ∈ (l.foldl teardownEntry s).doc → y ∈ s.doc) := by
  intro l
  induction l with
  | nil =>
    intro s y
    exact ⟨id, id, id, id, id⟩
  | cons p ps ih =>
    intro s y
    rw [List.foldl_cons]
    refine ⟨?_, ?_, ?_, ?_, ?_⟩
    · intro h
      exact mem_of_mem_delSet ((ih _ y).1 h)
    · intro h
      exact mem_of_mem_delSet ((ih _ y).2.1 h)
    · intro h
      exact mem_of_mem_delSet ((ih _ y).2.2.1 h)
    · intro h
      exact mem_of_mem_delSet ((ih _ y).2.2.2.1 h)
    · intro h
      exact mem_of_mem_boxfold ((ih _ y).2.2.2.2 h)

/-- Every entry handled by the `disableOCR` teardown loop has its
element's flags, listener and wrapping removed and all its boxes detached
from the document. -/
theorem teardown_foldl_clears :
    ∀ (l : List Ptr) (p : Ptr), p ∈ l → ∀ (s : St),
      p.img ∉ (l.foldl teardownEntry s).processed ∧
      p.img ∉ (l.foldl teardownEntry s).processing ∧
      p.img ∉ (l.foldl teardownEntry s).reloadListeners ∧
      p.img ∉ (l.foldl teardownEntry s).wrapped ∧
      ∀ b ∈ p.boxes, b.id ∉ (l.foldl teardownEntry s).doc := by
  intro l
  induction l with
  | nil =>
    intro p hp
    cases hp
  | cons q qs ih =>
    intro p hp s
    rw [List.foldl_cons]
    rcases List.mem_cons.mp hp with hpq | h
    · subst hpq
      refine ⟨?_, ?_, ?_, ?_, ?_⟩
      · intro hm
        exact not_mem_delSet p.img s.processed ((teardown_foldl_shrink qs _ _).1 hm)
      · intro hm
        exact not_mem_delSet p.img s.processing ((teardown_foldl_shrink qs _ _).2.1 hm)
      · intro hm
        exact not_mem_delSet p.img s.reloadListeners
          ((teardown_foldl_shrink qs _ _).2.2.1 hm)
      · intro hm
        exact not_mem_delSet p.img s.wrapped ((teardown_foldl_shrink qs _ _).2.2.2.1 hm)
      · intro b hb hm
        exact not_mem_boxfold hb s.doc ((teardown_foldl_shrink qs _ _).2.2.2.2 hm)
    · exact ih p h (teardownEntry s q)

/-- C5: disabling an enabled session empties the entry list, closes the
dialog and context menu, and for every entry's element clears both
registry flags, detaches its reload listener, unwraps it, and removes
every one of its overlay boxes from the document; disabling an already
disabled session changes nothing. -/
theorem disableOCR_clears_session :
    (∀ s : St, s.ocrEnabled = true →
        (disableOCR s).images = [] ∧
        (disableOCR s).dialogOpen = false ∧
        (disableOCR s).contextMenuOpen = false ∧
        ∀ p ∈ s.images,
          p.img ∉ (disableOCR s).processed ∧
          p.img ∉ (disableOCR s).processing ∧
          p.img ∉ (disableOCR s).reloadListeners ∧
          p.img ∉ (disableOCR s).wrapped ∧
          ∀ b ∈ p.boxes, b.id ∉ (disableOCR s).doc) ∧
    (∀ s : St, s.ocrEnabled = false → disableOCR s = s) := by
  constructor
  · intro s hs
    have hd : disableOCR s
        = { s.images.reverse.foldl teardownEntry { s with ocrEnabled := false } with
            images := [], dialogOpen := false, contextMenuOpen := false } := by
      simp [disableOCR, hs]
    rw [hd]
    refine ⟨rfl, rfl, rfl, ?_⟩
    intro p hp
    exact teardown_foldl_clears s.images.reverse p (List.mem_reverse.mpr hp)
      { s with ocrEnabled := false }
  · intro s hs
    simp [disableOCR, hs]

theorem disableOCR_clears_session_witness :
    (disableOCR (processImage 5 envOk st0).1).images = [] ∧
    5 ∉ (disableOCR (processImage 5 envOk st0).1).processed ∧
    disableOCR (disableOCR (processImage 5 envOk st0).1)
      = disableOCR (processImage 5 envOk st0).1 :=
  ⟨(disableOCR_clears_session.1 (processImage 5 envOk st0).1 (by decide)).1,
   ((disableOCR_clears_session.1 (processImage 5 envOk st0).1 (by decide)).2.2.2
      { img := 5, wrapper := 7
        boxes := [{ id := 0, originalText := some "A"
                    translatedText := some "B", innerText := "B" }] }
      (by decide)).1,
   disableOCR_clears_session.2 (disableOCR (processImage 5 envOk st0).1) (by decide)⟩

/-- C7: a recognition failure with a bad response of status 500 and
message "quota exceeded" renders one overlay box whose text is exactly
"Error [500]: quota exceeded", leaves the processed set empty so the
element is not marked processed, and the next periodic sweep resubmits
that element — its run starts, encodes and reaches recognition again. -/
theorem badResponse_overlay_and_resubmit :
    boxTexts (processImage 5 env500 st0).1 = ["Error [500]: quota exceeded"] ∧
    (processImage 5 env500 st0).1.processed = [] ∧
    (periodicCheck [5] (fun _ => env500) (processImage 5 env500 st0).1).2
      = [(5, { started := true, encoded := true
               recognized := true, rendered := true })] := by
  decide

/-- C9: the claim matches the spec's intent, but the code has no
enabled-state re-check before rendering.  Element 5's run passes its
synchronous prefix, the session is then disabled (no entries yet, so the
teardown loop has nothing to clear), and when the suspended remainder
resumes with a recognition success it still appends a registry entry,
attaches its overlay box to the document, and marks the element
processed — all while the session flag is off. -/
theorem late_success_after_disable_resurrects :
    (processImageFinish 5 envOk (disableOCR (processImageStart 5 st0).2)).1.ocrEnabled
        = false ∧
    (entriesFor 5
        (processImageFinish 5 envOk (disableOCR (processImageStart 5 st0).2)).1).length
        = 1 ∧
    (processImageFinish 5 envOk (disableOCR (processImageStart 5 st0).2)).1.processed
        = [5] ∧
    (processImageFinish 5 envOk (disableOCR (processImageStart 5 st0).2)).1.doc
        = [0] := by
  decide

/-- Rewriting every box's displayed text to its translated text is the
identity on boxes already displaying it. -/
theorem boxes_translated_id {bs : List Box}
    (h : ∀ b ∈ bs, b.innerText = jsStr b.translatedText) :
    bs.map (fun b => { b with innerText := jsStr b.translatedText }) = bs := by
  induction bs with
  | nil => rfl
  | cons b bs ih =>
    rw [List.map_cons]
    have hb := h b (List.mem_cons_self b bs)
    congr 1
    · cases b
      simp_all
    · exact ih fun b hbm => h b (List.mem_cons_of_mem _ hbm)

/-- Rewriting every box's displayed text to its original text is the
identity on boxes already displaying it. -/
theorem boxes_original_id {bs : List Box}
    (h : ∀ b ∈ bs, b.innerText = jsStr b.originalText) :
    bs.map (fun b => { b with innerText := jsStr b.originalText }) = bs := by
  induction bs with
  | nil => rfl
  | cons b bs ih =>
    rw [List.map_cons]
    have hb := h b (List.mem_cons_self b bs)
    congr 1
    · cases b
      simp_all
    · exact ih fun b hbm => h b (List.mem_cons_of_mem _ hbm)

/-- Entry-list version of `boxes_translated_id`. -/
theorem images_translated_id {l : List Ptr}
    (h : ∀ p ∈ l, ∀ b ∈ p.boxes, b.innerText = jsStr b.translatedText) :
    l.map (fun p => { p with boxes := p.boxes.map (fun b : Box => { b with innerText := jsStr b.translatedText }) }) = l := by
  induction l with
  | nil => rfl
  | cons p ps ih =>
    rw [List.map_cons]
    congr 1
    · rw [boxes_translated_id (h p (List.mem_cons_self p ps))]
    · exact ih fun q hq => h q (List.mem_cons_of_mem _ hq)

/-- Entry-list version of `boxes_original_id`. -/
theorem images_original_id {l : List Ptr}
    (h : ∀ p ∈ l, ∀ b ∈ p.boxes, b.innerText = jsStr b.originalText) :
    l.map (fun p => { p with boxes := p.boxes.map (fun b : Box => { b with innerText := jsStr b.originalText }) }) = l := by
  induction l with
  | nil => rfl
  | cons p ps ih =>
    rw [List.map_cons]
    congr 1
    · rw [boxes_original_id (h p (List.mem_cons_self p ps))]
    · exact ih fun q hq => h q (List.mem_cons_of_mem _ hq)

/-- C8, counterexample: the round trip does not restore the text of every
registry box.  A bad-response run leaves an error box displaying
"Error [500]: quota exceeded"; `applyError` never set its
`originalText` / `translatedText` fields, so `show-original-text`
followed by `show-translated-text` assigns the stringified JS
`undefined`, and the pre-command text is lost. -/
theorem toggle_roundtrip_fails_on_error_box :
    boxTexts (processImage 5 env500 st0).1 = ["Error [500]: quota exceeded"] ∧
    boxTexts (showTranslatedText "horizontal-tb"
        (showOriginalText "horizontal-tb" (processImage 5 env500 st0).1))
      = ["undefined"] := by
  decide

/-- C8, amended: the round trip restores every box's text exactly when
each registry box was displaying its translated text (the state every
OCR-success box is in while `showTranslated` is on): then
`show-original-text` followed by `show-translated-text` is the identity
on the whole state, and symmetrically for the other order when every box
was displaying its original text.  Error boxes, which carry neither
field, are excluded by the hypothesis and end up showing "undefined". -/
theorem toggle_roundtrip_restores_displayed_text :
    (∀ (s : St) (orient : String),
        s.showTranslated = true →
        s.orientation = orient →
        (∀ p ∈ s.images, ∀ b ∈ p.boxes, b.innerText = jsStr b.translatedText) →
        showTranslatedText orient (showOriginalText orient s) = s) ∧
    (∀ (s : St) (orient : String),
        s.showTranslated = false →
        s.orientation = orient →
        (∀ p ∈ s.images, ∀ b ∈ p.boxes, b.innerText = jsStr b.originalText) →
        showOriginalText orient (showTranslatedText orient s) = s) := by
  constructor
  · intro s orient hst hor h
    unfold showOriginalText showTranslatedText
    dsimp only
    rw [List.map_map]
    have hcomp :
        ((fun p : Ptr => { p with boxes := p.boxes.map (fun b : Box => { b with innerText := jsStr b.translatedText }) }) ∘
         (fun p : Ptr => { p with boxes := p.boxes.map (fun b : Box => { b with innerText := jsStr b.originalText }) }))
          = fun p : Ptr => { p with boxes := p.boxes.map (fun b : Box => { b with innerText := jsStr b.translatedText }) } := by
      funext p
      dsimp [Function.comp]
      rw [List.map_map]
      rfl
    rw [hcomp, images_translated_id h, ← hst, ← hor]
  · intro s orient hst hor h
    unfold showOriginalText showTranslatedText
    dsimp only
    rw [List.map_map]
    have hcomp :
        ((fun p : Ptr => { p with boxes := p.boxes.map (fun b : Box => { b with innerText := jsStr b.originalText }) }) ∘
         (fun p : Ptr => { p with boxes := p.boxes.map (fun b : Box => { b with innerText := jsStr b.translatedText }) }))
          = fun p : Ptr => { p with boxes := p.boxes.map (fun b : Box => { b with innerText := jsStr b.originalText }) } := by
      funext p
      dsimp [Function.comp]
      rw [List.map_map]
      rfl
    rw [hcomp, images_original_id h, ← hst, ← hor]

theorem toggle_roundtrip_restores_displayed_text_witness :
    showTranslatedText "horizontal-tb"
        (showOriginalText "horizontal-tb" (processImage 5 envOk st0).1)
      = (processImage 5 envOk st0).1 ∧
    showOriginalText "horizontal-tb"
        (showTranslatedText "horizontal-tb"
          (showOriginalText "horizontal-tb" (processImage 5 envOk st0).1))
      = showOriginalText "horizontal-tb" (processImage 5 envOk st0).1 :=
  ⟨toggle_roundtrip_restores_displayed_text.1 (processImage 5 envOk st0).1
      "horizontal-tb" (by decide) (by decide) (by decide),
   toggle_roundtrip_restores_displayed_text.2
      (showOriginalText "horizontal-tb" (processImage 5 envOk st0).1)
      "horizontal-tb" (by decide) (by decide) (by decide)⟩

/-- When the pattern starts the input, JS replace substitutes right
there. -/
theorem replaceFirstList_of_isPrefixOf {pat rep s : List Char}
    (h : pat.isPrefixOf s) :
    replaceFirstList pat rep s = rep ++ s.drop pat.length := by
  cases s with
  | nil => simp [replaceFirstList, h]
  | cons c cs => simp [replaceFirstList, h]

/-- When the leftmost occurrence of the pattern sits right after `a`, JS
replace rewrites exactly that occurrence and leaves the suffix `b` — and
any further occurrences inside it — untouched. -/
theorem replaceFirstList_firstOcc {pat rep : List Char} :
    ∀ (a b : List Char),
      (∀ i, i < a.length → ¬ pat.isPrefixOf (((a ++ pat) ++ b).drop i)) →
      replaceFirstList pat rep ((a ++ pat) ++ b) = (a ++ rep) ++ b := by
  intro a
  induction a with
  | nil =>
    intro b _
    have hpre : pat.isPrefixOf (pat ++ b) :=
      List.isPrefixOf_iff_prefix.mpr (List.prefix_append pat b)
    simp only [List.nil_append]
    rw [replaceFirstList_of_isPrefixOf hpre, List.drop_left]
  | cons c a ih =>
    intro b h
    have h0 : ¬ pat.isPrefixOf (((c :: a) ++ pat) ++ b) := by
      have := h 0 (Nat.succ_pos a.length)
      simpa using this
    have hstep :
        replaceFirstList pat rep (c :: ((a ++ pat) ++ b))
          = c :: replaceFirstList pat rep ((a ++ pat) ++ b) := by
      rw [replaceFirstList]
      rw [if_neg (by simpa using h0)]
    have hrec := ih b (fun i hi => by
      have := h (i + 1) (Nat.succ_lt_succ hi)
      simpa [List.drop_succ_cons] using this)
    simp only [List.cons_append]
    simp only [List.cons_append] at hstep
    rw [hstep, hrec]

/-- C10: the translate-selection handler mutates the element text with
`String.replace` and a string pattern, which rewrites only the leftmost
occurrence of the selected text; every later occurrence survives
verbatim in the unchanged suffix. -/
theorem translateSelection_replaces_first_occurrence :
    ∀ (a pat b rep : List Char),
      (∀ i, i < a.length → ¬ pat.isPrefixOf (((a ++ pat) ++ b).drop i)) →
      translateSelection (String.mk ((a ++ pat) ++ b)) (String.mk pat)
          (String.mk rep)
        = String.mk ((a ++ rep) ++ b) := by
  intro a pat b rep h
  show String.mk (replaceFirstList pat rep ((a ++ pat) ++ b)) = _
  rw [replaceFirstList_firstOcc a b h]

theorem translateSelection_replaces_first_occurrence_witness :
    translateSelection (String.mk ((['x'] ++ ['A']) ++ ['y', 'A']))
        (String.mk ['A']) (String.mk ['R'])
      = String.mk ((['x'] ++ ['R']) ++ ['y', 'A']) :=
  translateSelection_replaces_first_occurrence ['x'] ['A'] ['y', 'A'] ['R']
    (by decide)
